import Mathlib

/-!
# Verification of the solkol token-acquisition tracker

Shallow embedding of the ingestion-and-detection pipeline:
`src/services/rpcService.js` (balance-delta extraction, retry/rotation),
`src/services/instructionDecoder.js` (program instruction matcher),
`src/services/tokenBuyTracker.js` (acquisition classifier and session state),
`src/services/tokenTrackingService.js` (session startup) and
`src/utils/validation.js` (token-mint validation).

JavaScript semantics that matter here are modelled explicitly:
exceptions as `Except JsErr`, truthiness of `null`/`undefined`/`0`/`""` via
`Option` and explicit checks, `Array.prototype.reduce` without an initial
value, insertion-ordered `Map`s, and the fact (ECMA-262, `Math.abs` step 1:
`ToNumber`) that `Math.abs` applied to a BigInt throws a `TypeError`.
-/

namespace Solkol

/-- JavaScript runtime errors that the modelled code can raise. -/
inductive JsErr where
  | typeError
  | syntaxError
  | genericError
  deriving DecidableEq, Repr

/-- Digits-to-number helper for the decimal part of `BigInt(string)`. -/
def digitsToNat (ds : List Char) : Nat :=
  ds.foldl (fun acc c => 10 * acc + (c.toNat - '0'.toNat)) 0

/-- `BigInt(string)`: the empty string yields `0n`; an optional sign followed by
decimal digits parses exactly; anything else throws a `SyntaxError`.
(Whitespace trimming and the hex/octal/binary forms of the full JS grammar are
never produced by this program's inputs and are not modelled.) -/
def jsBigIntOfString (s : String) : Except JsErr Int :=
  if s = "" then .ok 0
  else
    match s.data with
    | '-' :: ds =>
        if ds ≠ [] ∧ ds.all Char.isDigit then .ok (-(digitsToNat ds : Int))
        else .error .syntaxError
    | '+' :: ds =>
        if ds ≠ [] ∧ ds.all Char.isDigit then .ok (digitsToNat ds : Int)
        else .error .syntaxError
    | ds =>
        if ds.all Char.isDigit then .ok (digitsToNat ds : Int)
        else .error .syntaxError

/-- `Math.abs(x)` where `x` is a BigInt value.  ECMA-262 `Math.abs ( x )`
first performs `ToNumber(x)`, and `ToNumber` of a BigInt throws a
`TypeError` ("Cannot convert a BigInt value to a number"), so this call
always fails, whatever the argument. -/
def mathAbsBigInt (_x : Int) : Except JsErr Int :=
  .error .typeError

/-- JS `a || b` for a possibly-absent number: `null`/`undefined` and `0` are
falsy, so they select the fallback. -/
def jsOrInt (a : Option Int) (b : Int) : Int :=
  match a with
  | some v => if v ≠ 0 then v else b
  | none => b

/-! ## Data model (`RawTransaction` as consumed by the services) -/

/-- One entry of `meta.preTokenBalances` / `meta.postTokenBalances`:
`{ accountIndex, mint, uiTokenAmount: { amount, decimals } }`.
The raw amount is the decimal string the node returns. -/
structure TokenBalance where
  accountIndex : Nat
  mint : String
  amount : String
  decimals : Int
  deriving DecidableEq, Repr

/-- An instruction's opaque payload: either a base58 string or (already) an
array of byte values, the two shapes `decodeInstructionData` distinguishes. -/
inductive InstrData where
  | str (s : String)
  | bytes (l : List Nat)
  deriving DecidableEq, Repr

/-- One top-level or inner instruction:
`{ programIdIndex, data, accounts }` (`accounts` may be absent). -/
structure Instruction where
  programIdIndex : Nat
  data : InstrData
  accounts : Option (List Nat)
  deriving DecidableEq, Repr

/-- One `meta.innerInstructions` group: the parent index and its CPI calls. -/
structure InnerGroup where
  index : Nat
  instructions : List Instruction
  deriving DecidableEq, Repr

/-- `transaction.meta`: balances snapshots, inner instructions, error flag. -/
structure TxMeta where
  preTokenBalances : Option (List TokenBalance)
  postTokenBalances : Option (List TokenBalance)
  innerInstructions : Option (List InnerGroup)
  err : Bool
  deriving DecidableEq, Repr

/-- A transaction as the services consume it.  `transaction.transaction.message`
is flattened into the fields `accountKeys`, `staticAccountKeys` and
`instructions`; `Option` encodes `null`/`undefined` fields.  The signature is
passed separately to every call, as in the source. -/
structure Transaction where
  slot : Nat
  blockTime : Option Int
  accountKeys : Option (List String)
  staticAccountKeys : Option (List String)
  instructions : Option (List Instruction)
  meta : Option TxMeta
  deriving DecidableEq, Repr

/-- A balance delta produced by `getTokenBalanceChanges`.  The source stores
`preAmount`/`postAmount`/`delta` as `BigInt(...).toString()` strings and every
later consumer immediately re-parses them with `BigInt(change.delta)`; since
that round-trip is exact, the embedded record keeps the integers. -/
structure BalanceChange where
  mint : String
  accountIndex : Nat
  preAmount : Int
  postAmount : Int
  delta : Int
  decimals : Int
  deriving DecidableEq, Repr

/-! ## Balance-delta extractor (`SolanaRPCService.getTokenBalanceChanges`) -/

/-- The lookup key `` `${balance.accountIndex}-${balance.mint}` ``. -/
def balKey (b : TokenBalance) : String :=
  toString b.accountIndex ++ "-" ++ b.mint

/-- JS `Map.set`: an existing key is overwritten in place, a new key is
appended; iteration follows insertion order. -/
def jsMapSet (m : List (String × TokenBalance)) (k : String) (v : TokenBalance) :
    List (String × TokenBalance) :=
  if m.any (fun p => p.1 == k) then
    m.map (fun p => if p.1 == k then (k, v) else p)
  else m ++ [(k, v)]

/-- Builds the pre/post balance `Map`s via `forEach(... map.set(key, balance))`. -/
def buildBalMap (balances : List TokenBalance) : List (String × TokenBalance) :=
  balances.foldl (fun m b => jsMapSet m (balKey b) b) []

/-- The `for (const [key, postBalance] of postBalanceMap)` loop.  A missing
pre-balance defaults to `{ uiTokenAmount: { amount: '0' } }` (only `amount` is
read from the default).  `BigInt` parse failures abort the whole call. -/
def collectChanges (preMap : List (String × TokenBalance)) :
    List (String × TokenBalance) → Except JsErr (List BalanceChange)
  | [] => .ok []
  | (key, post) :: rest => do
      let preAmountStr :=
        match preMap.lookup key with
        | some pre => pre.amount
        | none => "0"
      let preAmount ← jsBigIntOfString preAmountStr
      let postAmount ← jsBigIntOfString post.amount
      let delta := postAmount - preAmount
      let tail ← collectChanges preMap rest
      if delta ≠ 0 then
        .ok ({ mint := post.mint, accountIndex := post.accountIndex,
               preAmount := preAmount, postAmount := postAmount,
               delta := delta, decimals := post.decimals } :: tail)
      else
        .ok tail

/-- `SolanaRPCService.getTokenBalanceChanges(transaction)`: absent meta or
snapshots yield `[]`; otherwise the signed per-(account, mint) deltas, zero
deltas omitted. -/
def getTokenBalanceChanges (tx : Transaction) : Except JsErr (List BalanceChange) :=
  match tx.meta with
  | none => .ok []
  | some meta =>
      match meta.preTokenBalances, meta.postTokenBalances with
      | some pre, some post =>
          collectChanges (buildBalMap pre) (buildBalMap post)
      | _, _ => .ok []

/-! ## Program instruction matcher (`InstructionDecoder`) -/

/-- A `config.dexPrograms` entry: program address, exchange name, and the
per-operation 8-byte leading signatures. -/
structure DexInfo where
  programId : String
  name : String
  discriminators : List (String × List Nat)
  deriving DecidableEq, Repr

/-- The static `config.dexPrograms` table (`src/config/index.js`), in
`Object.entries` (insertion) order. -/
def dexPrograms : List DexInfo :=
  [ { programId := "JUP4Fb2cqiRUcaTHdrPC8h2gNsA2ETXiPDD33WcGuJB", name := "Jupiter",
      discriminators := [("shared_route", [0x8b, 0x8f, 0x1f, 0x8c, 0x1c, 0x1a, 0x6a, 0x4a]),
                         ("route", [0x8b, 0x8f, 0x1f, 0x8c, 0x1c, 0x1a, 0x6a, 0x4a])] },
    { programId := "9W959DqEETiGZocYWCQPaJ6sBmUzgfxXfqGeTEdp3aQP", name := "Orca",
      discriminators := [("swap", [0xf8, 0xc6, 0x9e, 0x91, 0xe1, 0x75, 0x87, 0xc8])] },
    { programId := "675kPX9MHTjS2zt1qfr1NYHuzeLXfQM9H24wFSUt1Mp8", name := "Raydium",
      discriminators := [("swap", [0x09, 0x0a, 0x90, 0x1d, 0x0c, 0x0a, 0x0b, 0x0c])] },
    { programId := "2wT8Yq49kHgDzXuPxZSaeLaH1qbmGXtEyPy64bL7aD3c", name := "Lifinity",
      discriminators := [("swap", [0x2e, 0x6b, 0x41, 0x5a, 0x9f, 0x8b, 0x7c, 0x3d])] },
    { programId := "9xQeWvG816bUx9EPjHmaT23yvVM2ZWbrrpZb9PusVFin", name := "Serum",
      discriminators := [("new_order", [0x10, 0x2c, 0x0b, 0x6e, 0x3f, 0x54, 0x8a, 0x9c])] },
    { programId := "srmqPvymJeFKQ4zGQed1GFppgkRHL9kaELCbyksJtPX", name := "OpenBook",
      discriminators := [("new_order", [0x10, 0x2c, 0x0b, 0x6e, 0x3f, 0x54, 0x8a, 0x9c])] },
    { programId := "PhoeNiXZ8ByJGLkxNfZRnkUfjvmuYqLR89jjFHGqdXY", name := "Phoenix",
      discriminators := [("swap", [0, 0, 0, 0, 0, 0, 0, 0])] },
    { programId := "SSwpMgqNDsyV7mAgN9ady4bDVu5ySjmmXejXvy2vLt1", name := "Step",
      discriminators := [("swap", [0, 0, 0, 0, 0, 0, 0, 0])] },
    { programId := "cysPXAjehMpVKUapzbMCCnpFxUFFryEWEaLgnb9NrR8", name := "Cykura",
      discriminators := [("swap", [0, 0, 0, 0, 0, 0, 0, 0])] },
    { programId := "7WduLbRfYhTJktjLw5FDEyrqoEv61aTTCuGAetgLjzN5", name := "GooseFX",
      discriminators := [("swap", [0, 0, 0, 0, 0, 0, 0, 0])] },
    { programId := "CROPiAqv5Qn1eZ4w6K6Qw6Qw6Qw6Qw6Qw6Qw6Qw6", name := "Cropper",
      discriminators := [("swap", [0, 0, 0, 0, 0, 0, 0, 0])] },
    { programId := "6MLxLqiXaaSUpkgMnWDTuejNZEz3kE7k2woyHGVFw319", name := "Crema",
      discriminators := [("swap", [0, 0, 0, 0, 0, 0, 0, 0])] },
    { programId := "AMM55ShdkoGRB5jVYPjWziwk8m5MpwyDgsMWHaMSQWH6", name := "Aldrin",
      discriminators := [("swap", [0, 0, 0, 0, 0, 0, 0, 0])] },
    { programId := "pAMMBay6oceH9fJKBRHGP5D4bD4sWpmSwMn52FMfXEA", name := "Pumpswap",
      discriminators := [("swap", [0, 0, 0, 0, 0, 0, 0, 0])] },
    { programId := "Eo7WjKq67rjJQSZxS6z3YkapzY3eMj6Xy8X5EQVn5UaB", name := "Meteora",
      discriminators := [("swap", [0, 0, 0, 0, 0, 0, 0, 0])] } ]

/-- `InstructionDecoder.findDexByProgramId`: first table entry whose
`programId` matches. -/
def findDexByProgramId (programId : String) : Option DexInfo :=
  dexPrograms.find? (fun d => d.programId == programId)

/-- The base58 alphabet of the decoder's hand-rolled `base58ToBytes`. -/
def b58Alphabet : List Char :=
  "123456789ABCDEFGHJKLMNPQRSTUVWXYZabcdefghijkmnopqrstuvwxyz".data

/-- `ALPHABET_MAP[c]` for one character of a base58 *string*. -/
def alphabetIndexOfChar (c : Char) : Option Nat :=
  b58Alphabet.findIdx? (fun x => x == c)

/-- `ALPHABET_MAP[e]` when `base58ToBytes` is (mistakenly) fed a byte *array*:
JS property lookup coerces the element to a string, so only the single-digit
byte values 1–9 hit an alphabet entry (the characters '1'–'9'). -/
def b58IndexOfArrayElem (n : Nat) : Option Nat :=
  match (toString n).data with
  | [c] => b58Alphabet.findIdx? (fun x => x == c)
  | _ => none

/-- Inner loop of `base58ToBytes`: multiply the little-endian byte accumulator
by 58, add the symbol value, and propagate the carry through the digits. -/
def b58Step : List Nat → Nat → List Nat × Nat
  | [], carry => ([], carry)
  | d :: ds, carry =>
      let c := carry + d * 58
      let rest := b58Step ds (c / 256)
      ((c % 256) :: rest.1, rest.2)

/-- The `while (carry > 0) result.push(carry & 0xff)` loop. -/
def carryBytes (c : Nat) : List Nat :=
  if h : c = 0 then []
  else (c % 256) :: carryBytes (c / 256)
decreasing_by exact Nat.div_lt_self (Nat.pos_of_ne_zero h) (by norm_num)

/-- The main symbol loop of `base58ToBytes`; an unmapped symbol throws
`Error('Invalid base58 character')`. -/
def b58Accumulate (syms : List (Option Nat)) : Except JsErr (List Nat) :=
  syms.foldlM
    (fun result sym =>
      match sym with
      | none => .error .genericError
      | some carry0 =>
          let stepped := b58Step result carry0
          .ok (stepped.1 ++ carryBytes stepped.2))
    []

/-- Count of leading `'1'` characters (each contributes one zero byte). -/
def leadingOnes : List Char → Nat
  | '1' :: rest => leadingOnes rest + 1
  | _ => 0

/-- `InstructionDecoder.base58ToBytes(data)`.  On a string, the hand-rolled
decoder runs normally.  On a byte array (the decoder is called with whatever
shape `instruction.data` has), indexing yields numbers whose `ALPHABET_MAP`
lookup only succeeds for bytes 1–9, and the trailing `=== '1'` comparison of a
number against a string is always false, so no zero bytes are appended. -/
def base58ToBytes (data : InstrData) : Except JsErr (List Nat) :=
  match data with
  | .str s => do
      let res ← b58Accumulate (s.data.map alphabetIndexOfChar)
      .ok ((res ++ List.replicate (leadingOnes s.data) 0).reverse)
  | .bytes l => do
      let res ← b58Accumulate (l.map b58IndexOfArrayElem)
      .ok res.reverse

/-- The result of `decodeInstructionData`: operation name (or `"unknown"`),
the extracted 8-byte discriminator, and the raw payload bytes; the early
returns carry neither discriminator nor raw bytes. -/
structure DecodedData where
  type : String
  discriminator : Option (List Nat)
  rawData : Option (List Nat)
  deriving DecidableEq, Repr

/-- `InstructionDecoder.arraysEqual`. -/
def arraysEqual (a b : List Nat) : Bool :=
  a.length == b.length && (List.zip a b).all (fun p => p.1 == p.2)

/-- JS falsiness of the `data` payload (`!data`): the empty string is falsy,
arrays — even empty ones — are truthy. -/
def instrDataFalsy : InstrData → Bool
  | .str s => s == ""
  | .bytes _ => false

/-- `data.length` for either payload shape. -/
def instrDataLen : InstrData → Nat
  | .str s => s.length
  | .bytes l => l.length

/-- The tail of `decodeInstructionData` once payload bytes are available:
extract the leading 8 bytes and match them against the signature table;
no match yields `type = "unknown"` (the instruction stays decodable). -/
def matchDiscriminator (dataBytes : List Nat) (dexInfo : DexInfo) : DecodedData :=
  if dataBytes.length < 8 then ⟨"unknown", none, none⟩
  else
    let discriminator := dataBytes.take 8
    match dexInfo.discriminators.find? (fun e => arraysEqual discriminator e.2) with
    | some e => ⟨e.1, some discriminator, some dataBytes⟩
    | none => ⟨"unknown", some discriminator, some dataBytes⟩

/-- `InstructionDecoder.decodeInstructionData(data, dexInfo)`. -/
def decodeInstructionData (data : InstrData) (dexInfo : DexInfo) : DecodedData :=
  if instrDataFalsy data || decide (instrDataLen data < 8) then ⟨"unknown", none, none⟩
  else
    match base58ToBytes data, data with
    | .ok dataBytes, _ => matchDiscriminator dataBytes dexInfo
    | .error _, .bytes l => matchDiscriminator l dexInfo
    | .error _, .str _ => ⟨"unknown", none, none⟩

/-- `InstructionDecoder.isSwapInstruction(decodedData, dexInfo)`. -/
def isSwapInstruction (decodedData : DecodedData) (_dexInfo : DexInfo) : Bool :=
  if decodedData.type == "" then false
  else ["swap", "route", "shared_route", "new_order"].contains decodedData.type.toLower

/-- `InstructionDecoder.isRelevantInstruction(decodedData, dexInfo)`:
`"unknown"` operations from a known DEX count as relevant. -/
def isRelevantInstruction (decodedData : DecodedData) (_dexInfo : DexInfo) : Bool :=
  if decodedData.type == "" then false
  else
    ["swap", "route", "shared_route", "new_order", "unknown"].contains
      decodedData.type.toLower

/-- One emitted `DecodedInstruction`. -/
structure DecodedInstruction where
  index : String
  programId : String
  dex : String
  accounts : List Nat
  data : InstrData
  decodedData : DecodedData
  isSwapInstruction : Bool
  isRelevantInstruction : Bool
  isInner : Bool
  parentInstructionIndex : Option Nat
  deriving DecidableEq, Repr

/-- `transaction.transaction.message.accountKeys || staticAccountKeys || []`
(a present array is truthy even when empty). -/
def effectiveAccounts (tx : Transaction) : List String :=
  match tx.accountKeys with
  | some l => l
  | none =>
      match tx.staticAccountKeys with
      | some l => l
      | none => []

/-- `InstructionDecoder.decodeInstruction(instruction, transaction, index)`:
an unresolvable or unknown program drops the instruction (`null`); a known
program emits it with its decoded payload. -/
def decodeInstruction (instruction : Instruction) (tx : Transaction) (index : String) :
    Option DecodedInstruction :=
  let accounts := effectiveAccounts tx
  match accounts[instruction.programIdIndex]? with
  | none => none
  | some programId =>
      if programId == "" then none
      else
        match findDexByProgramId programId with
        | none => none
        | some dexInfo =>
            let instructionData := decodeInstructionData instruction.data dexInfo
            some { index := index, programId := programId, dex := dexInfo.name,
                   accounts := instruction.accounts.getD [],
                   data := instruction.data,
                   decodedData := instructionData,
                   isSwapInstruction := isSwapInstruction instructionData dexInfo,
                   isRelevantInstruction := isRelevantInstruction instructionData dexInfo,
                   isInner := false, parentInstructionIndex := none }

/-- `InstructionDecoder.decodeTransaction(transaction)`: top-level
instructions first, then every inner (CPI) instruction, the latter tagged
with `isInner` and their parent index. -/
def decodeTransaction (tx : Transaction) : List DecodedInstruction :=
  let top :=
    match tx.instructions with
    | some instrs =>
        instrs.enum.filterMap (fun p => decodeInstruction p.2 tx (toString p.1))
    | none => []
  let inner :=
    match tx.meta with
    | some meta =>
        match meta.innerInstructions with
        | some groups =>
            groups.flatMap (fun g =>
              g.instructions.enum.filterMap (fun p =>
                (decodeInstruction p.2 tx
                    ("inner-" ++ toString g.index ++ "-" ++ toString p.1)).map
                  (fun d =>
                    { d with isInner := true, parentInstructionIndex := some g.index })))
        | none => []
    | none => []
  top ++ inner

/-! ## Acquisition classifier (`TokenBuyTracker`) -/

/-- One detected acquisition record (`buyData` in the source). -/
structure BuyData where
  txHash : String
  dex : String
  targetToken : String
  tokenSold : String
  amountBought : String
  amountSold : String
  decimalsTarget : Int
  decimalsSold : Int
  timestamp : Int
  instructionType : String
  programId : String
  slot : Nat
  buyNumber : Nat
  buyer : String
  pricePerToken : String
  confidence : String
  deriving DecidableEq, Repr

/-- The `TokenBuyTracker` instance fields touched by detection. -/
structure TrackerState where
  targetToken : Option String
  startingBlock : Option Nat
  detectedBuys : List BuyData
  maxBuys : Nat
  isComplete : Bool
  deriving DecidableEq, Repr

/-- The constructor's initial state (`maxBuys = 100`). -/
def initTracker : TrackerState :=
  { targetToken := none, startingBlock := none, detectedBuys := [],
    maxBuys := 100, isComplete := false }

/-- `TokenBuyTracker.setTargetToken(tokenMint, startingBlock)`. -/
def setTargetToken (s : TrackerState) (tokenMint : String) (startingBlock : Option Nat) :
    TrackerState :=
  { s with targetToken := some tokenMint, startingBlock := startingBlock,
           detectedBuys := [], isComplete := false }

/-- `TokenBuyTracker.isTrackingComplete()`. -/
def isTrackingComplete (s : TrackerState) : Bool := s.isComplete

/-- `TokenBuyTracker.markComplete()`. -/
def markComplete (s : TrackerState) : TrackerState := { s with isComplete := true }

/-- `TokenBuyTracker.extractBuyer(transaction, targetAccountIndex)`: the
account at the winning delta's index when in range; otherwise the first
`accountKeys` entry; otherwise `'unknown'`. -/
def extractBuyer (tx : Transaction) (targetAccountIndex : Nat) : String :=
  let accounts := effectiveAccounts tx
  match accounts[targetAccountIndex]? with
  | some a => a
  | none =>
      match tx.accountKeys with
      | some (a :: _) => a
      | _ => "unknown"

/-- Zero-padding of the 8 fractional digits of `toFixed(8)`. -/
def pad8 (n : Nat) : String :=
  let s := toString n
  String.mk (List.replicate (8 - s.length) '0' ++ s.data)

/-- `x.toFixed(8)` idealized over exact rationals: the integer `n` with
`n / 10^8` closest to `x`, ties to the larger `n` (ECMA-262 Number.prototype.toFixed). -/
def toFixed8 (q : ℚ) : String :=
  let scaled : Int := Int.floor (q * 100000000 + 1 / 2)
  let body := toString (scaled.natAbs / 100000000) ++ "." ++ pad8 (scaled.natAbs % 100000000)
  if scaled < 0 then "-" ++ body else body

/-- `TokenBuyTracker.calculatePrice(tokenSold, targetTokenBuy)`.  The first
statement of the `try` block is `Math.abs(BigInt(tokenSold.delta))`, which
throws a `TypeError` (see `mathAbsBigInt`), so the `catch` always returns
`'0'`.  The remaining branch is dead code; it idealizes the source's 64-bit
float division and `Math.pow` by exact rationals. -/
def calculatePrice (tokenSold targetTokenBuy : BalanceChange) : String :=
  match mathAbsBigInt tokenSold.delta with
  | .error _ => "0"
  | .ok amountSold =>
      let amountBought := targetTokenBuy.delta
      if amountBought = 0 then "0"
      else
        let decimalAdjustment : ℚ := (10 : ℚ) ^ (targetTokenBuy.decimals - tokenSold.decimals)
        toFixed8 ((amountSold : ℚ) / (amountBought : ℚ) * decimalAdjustment)

/-- One comparison of the `targetTokenBuy` reduce:
`BigInt(current.delta) > BigInt(max.delta) ? current : max`.  The deltas are
exact integers, so the surrounding `try`/`catch` never fires; strict `>`
means the first-encountered maximum wins ties. -/
def targetBuyStep (max current : BalanceChange) : BalanceChange :=
  if current.delta > max.delta then current else max

/-- One comparison of the `tokenSold` reduce:
`Math.abs(BigInt(current.delta)) > Math.abs(BigInt(max.delta)) ? current : max`
inside a `try` whose `catch` returns `max`.  `Math.abs` of a BigInt throws,
so every comparison returns the accumulator: the reduce keeps its seed, the
first decrease encountered. -/
def tokenSoldStep (max current : BalanceChange) : BalanceChange :=
  match mathAbsBigInt current.delta with
  | .error _ => max
  | .ok curAbs =>
      match mathAbsBigInt max.delta with
      | .error _ => max
      | .ok maxAbs => if curAbs > maxAbs then current else max

/-- The `amountSold` IIFE: `Math.abs(BigInt(tokenSold.delta)).toString()` in a
`try` whose `catch` returns `'0'`; `Math.abs` of a BigInt throws, so the
result is always `'0'`. -/
def amountSoldString (tokenSold : BalanceChange) : String :=
  match mathAbsBigInt tokenSold.delta with
  | .error _ => "0"
  | .ok v => toString v

/-- JS `a || b` on strings (the empty string is falsy). -/
def jsOrStr (a b : String) : String := if a ≠ "" then a else b

/-- `TokenBuyTracker.analyzePotentialBuy(allBalanceChanges, targetTokenChanges,
transaction, signature, skipAddingBuys)` — the "no recognized DEX
instruction" path, confidence `'medium'`.  Returns the produced record (if
any) and the updated tracker state (`detectedBuys.push` unless
`skipAddingBuys`). -/
def analyzePotentialBuy (s : TrackerState) (tgt : String)
    (allBalanceChanges targetTokenChanges : List BalanceChange)
    (tx : Transaction) (signature : String) (skipAddingBuys : Bool) (now : Int) :
    Option BuyData × TrackerState :=
  match targetTokenChanges.filter (fun c => decide (c.delta > 0)) with
  | [] => (none, s)
  | i0 :: irest =>
      match allBalanceChanges.filter (fun c => decide (c.delta < 0) && !(c.mint == tgt)) with
      | [] => (none, s)
      | d0 :: drest =>
          let targetTokenBuy := irest.foldl targetBuyStep i0
          let tokenSold := drest.foldl tokenSoldStep d0
          let blockTime := jsOrInt tx.blockTime now
          let buyData : BuyData :=
            { txHash := signature, dex := "Unknown", targetToken := tgt,
              tokenSold := tokenSold.mint,
              amountBought := toString targetTokenBuy.delta,
              amountSold := amountSoldString tokenSold,
              decimalsTarget := targetTokenBuy.decimals,
              decimalsSold := tokenSold.decimals,
              timestamp := blockTime,
              instructionType := "potential_buy", programId := "unknown",
              slot := tx.slot, buyNumber := s.detectedBuys.length + 1,
              buyer := extractBuyer tx targetTokenBuy.accountIndex,
              pricePerToken := calculatePrice tokenSold targetTokenBuy,
              confidence := "medium" }
          if skipAddingBuys then (some buyData, s)
          else (some buyData, { s with detectedBuys := s.detectedBuys ++ [buyData] })

/-- `TokenBuyTracker.analyzeBuy(swapInstruction, allBalanceChanges,
targetTokenChanges, transaction, signature, skipAddingBuys)` — the path for a
decoded DEX instruction, confidence `'high'`. -/
def analyzeBuy (s : TrackerState) (tgt : String) (swapInstruction : DecodedInstruction)
    (allBalanceChanges targetTokenChanges : List BalanceChange)
    (tx : Transaction) (signature : String) (skipAddingBuys : Bool) (now : Int) :
    Option BuyData × TrackerState :=
  match targetTokenChanges.filter (fun c => decide (c.delta > 0)) with
  | [] => (none, s)
  | i0 :: irest =>
      match allBalanceChanges.filter (fun c => decide (c.delta < 0) && !(c.mint == tgt)) with
      | [] => (none, s)
      | d0 :: drest =>
          let targetTokenBuy := irest.foldl targetBuyStep i0
          let tokenSold := drest.foldl tokenSoldStep d0
          let blockTime := jsOrInt tx.blockTime now
          let buyData : BuyData :=
            { txHash := signature, dex := swapInstruction.dex, targetToken := tgt,
              tokenSold := tokenSold.mint,
              amountBought := toString targetTokenBuy.delta,
              amountSold := amountSoldString tokenSold,
              decimalsTarget := targetTokenBuy.decimals,
              decimalsSold := tokenSold.decimals,
              timestamp := blockTime,
              instructionType := jsOrStr swapInstruction.decodedData.type "unknown",
              programId := swapInstruction.programId,
              slot := tx.slot, buyNumber := s.detectedBuys.length + 1,
              buyer := extractBuyer tx targetTokenBuy.accountIndex,
              pricePerToken := calculatePrice tokenSold targetTokenBuy,
              confidence := "high" }
          if skipAddingBuys then (some buyData, s)
          else (some buyData, { s with detectedBuys := s.detectedBuys ++ [buyData] })

/-- The `for (const dexInstruction of dexInstructions)` loop of
`detectBuysInTransaction`, collecting the non-null `analyzeBuy` results in
order while threading the tracker state. -/
def analyzeBuyLoop (tgt : String) (allChanges targetChanges : List BalanceChange)
    (tx : Transaction) (signature : String) (skip : Bool) (now : Int) :
    List DecodedInstruction → TrackerState → List BuyData × TrackerState
  | [], s => ([], s)
  | inst :: rest, s =>
      match analyzeBuy s tgt inst allChanges targetChanges tx signature skip now with
      | (some b, s2) =>
          let r := analyzeBuyLoop tgt allChanges targetChanges tx signature skip now rest s2
          (b :: r.1, r.2)
      | (none, s2) =>
          analyzeBuyLoop tgt allChanges targetChanges tx signature skip now rest s2

/-- `this.startingBlock && transaction.slot < this.startingBlock`
(`startingBlock = 0` or `null` is falsy). -/
def startingBlockGate (sb : Option Nat) (slot : Nat) : Bool :=
  match sb with
  | some b => decide (b ≠ 0) && decide (slot < b)
  | none => false

/-- The `try` block of `detectBuysInTransaction`.  The only throwing
operation is `getTokenBalanceChanges` (malformed balance amount strings); it
runs before any state mutation, so the catch handler observes the entry
state. -/
def detectBody (s : TrackerState) (tgt : String) (skip : Bool) (tx : Transaction)
    (signature : String) (now : Int) : Except JsErr (List BuyData × TrackerState) :=
  match getTokenBalanceChanges tx with
  | .error e => .error e
  | .ok balanceChanges =>
  let targetTokenChanges := balanceChanges.filter (fun c => c.mint == tgt)
  match targetTokenChanges with
  | [] => .ok ([], s)
  | _ :: _ =>
      let decodedInstructions := decodeTransaction tx
      let dexInstructions := decodedInstructions.filter (fun inst => !(inst.dex == ""))
      match dexInstructions with
      | [] =>
          match analyzePotentialBuy s tgt balanceChanges targetTokenChanges tx signature
              skip now with
          | (some b, s2) => .ok ([b], s2)
          | (none, _) => .ok ([], s)
      | _ :: _ =>
          let r := analyzeBuyLoop tgt balanceChanges targetTokenChanges tx signature skip
            now dexInstructions s
          match r.1 with
          | [] =>
              match analyzePotentialBuy r.2 tgt balanceChanges targetTokenChanges tx
                  signature skip now with
              | (some b, s2) => .ok ([b], s2)
              | (none, _) => .ok ([], r.2)
          | _ :: _ => .ok r

/-- `TokenBuyTracker.detectBuysInTransaction(transaction, signature)`:
guard clauses, the once-per-call `skipAddingBuys` flag, and the surrounding
`try`/`catch` that maps any internal failure to `[]`. -/
def detectBuysInTransaction (s : TrackerState) (tx : Transaction) (signature : String)
    (now : Int) : List BuyData × TrackerState :=
  match s.targetToken with
  | none => ([], s)
  | some tgt =>
      if tgt == "" then ([], s)
      else if startingBlockGate s.startingBlock tx.slot then ([], s)
      else
        let skip := decide (s.detectedBuys.length ≥ s.maxBuys)
        match detectBody s tgt skip tx signature now with
        | .ok r => r
        | .error _ => ([], s)

/-- Processing a stream of (transaction, signature) pairs in order, as the
backfill and live-tail loops feed them to the tracker. -/
def runDetect (s : TrackerState) (txs : List (Transaction × String)) (now : Int) :
    TrackerState :=
  txs.foldl (fun st p => (detectBuysInTransaction st p.1 p.2 now).2) s

/-! ## Rate-limited block source (`SolanaRPCService`) -/

/-- `config.solana` defaults (`src/config/index.js`). -/
def requestDelayDefault : Nat := 500

/-- `config.solana.rateLimitBackoffMultiplier` default (3.0). -/
def rateLimitBackoffMultiplier : Nat := 3

/-- `config.solana.maxRateLimitDelay` default. -/
def maxRateLimitDelay : Nat := 60000

/-- `config.solana.retryDelay` default. -/
def retryDelay : Nat := 1000

/-- `config.solana.maxRetries` default. -/
def maxRetries : Nat := 5

/-- The endpoint pool built in the constructor: the configured URL plus three
fallbacks. -/
def rpcEndpoints : List String :=
  ["https://api.mainnet-beta.solana.com",
   "https://solana-api.projectserum.com",
   "https://rpc.ankr.com/solana",
   "https://mainnet.rpcpool.com"]

/-- The `SolanaRPCService` instance fields driving retry and rotation. -/
structure RpcState where
  currentRpcIndex : Nat
  retryCount : Nat
  consecutiveRateLimitErrors : Nat
  rateLimitDelay : Nat
  requestCount : Nat
  requestWindowStart : Int
  lastRequestTime : Int
  isRunning : Bool
  deriving DecidableEq, Repr

/-- The constructor's initial backoff state. -/
def initRpcState (now : Int) : RpcState :=
  { currentRpcIndex := 0, retryCount := 0, consecutiveRateLimitErrors := 0,
    rateLimitDelay := requestDelayDefault, requestCount := 0,
    requestWindowStart := now, lastRequestTime := 0, isRunning := false }

/-- An upstream failure as `handleRetry` distinguishes it: whether
`error.message.includes('429')`. -/
inductive RpcErr where
  | throttled429
  | other
  deriving DecidableEq, Repr

/-- What one `handleRetry` call did besides mutating state. -/
structure RetryEffect where
  rotated : Bool
  sleptMs : Nat
  stoppedService : Bool
  deriving DecidableEq, Repr

/-- `SolanaRPCService.switchRpcEndpoint()`: advance the endpoint index
(mod pool size) and reset every piece of rate-limit state. -/
def switchRpcEndpoint (s : RpcState) (now : Int) : RpcState :=
  { s with currentRpcIndex := (s.currentRpcIndex + 1) % rpcEndpoints.length,
           rateLimitDelay := requestDelayDefault,
           consecutiveRateLimitErrors := 0,
           requestCount := 0,
           requestWindowStart := now }

/-- `SolanaRPCService.handleRetry(error)`.  All the delay arithmetic
(`500·3^k`, `1000·2^a·2^c`, capped at 60000) stays within exactly
representable 64-bit floats, so `Nat` models it exactly. -/
def handleRetry (s : RpcState) (err : RpcErr) (now : Int) : RpcState × RetryEffect :=
  let s1 := { s with retryCount := s.retryCount + 1 }
  match err with
  | .throttled429 =>
      let s2 := { s1 with consecutiveRateLimitErrors := s1.consecutiveRateLimitErrors + 1 }
      if s2.consecutiveRateLimitErrors ≥ 3 then
        let s3 := switchRpcEndpoint s2 now
        let s4 := { s3 with consecutiveRateLimitErrors := 0, retryCount := 0 }
        (s4, { rotated := true, sleptMs := 5000, stoppedService := false })
      else
        let newDelay := min (s2.rateLimitDelay * rateLimitBackoffMultiplier) maxRateLimitDelay
        let s3 := { s2 with rateLimitDelay := newDelay }
        let baseDelay := retryDelay * 2 ^ (s3.retryCount - 1)
        let consecutiveMultiplier := 2 ^ (s3.consecutiveRateLimitErrors - 1)
        let slept := min (baseDelay * consecutiveMultiplier) maxRateLimitDelay
        (s3, { rotated := false, sleptMs := slept, stoppedService := false })
  | .other =>
      if s1.retryCount ≥ maxRetries then
        ({ s1 with isRunning := false },
         { rotated := false, sleptMs := 0, stoppedService := true })
      else
        (s1, { rotated := false, sleptMs := retryDelay * 2 ^ (s1.retryCount - 1), stoppedService := false })

/-- Three consecutive 429-throttled `handleRetry` calls. -/
def throttle3 (s : RpcState) (t1 t2 t3 : Int) : RpcState × RetryEffect :=
  handleRetry (handleRetry (handleRetry s .throttled429 t1).1 .throttled429 t2).1
    .throttled429 t3

/-- A block as `processSlot` consumes it (`block.transactions` may be absent). -/
structure Block where
  transactions : Option (List Transaction)
  deriving Repr

/-- The body of `SolanaRPCService.processSlot(slot, onNewBlock)`: fetch the
block (which may throw or return `null`) and hand it to the callback when it
has transactions. -/
def processSlotBody (blockResult : Except JsErr (Option Block))
    (onNewBlock : Block → Except JsErr Unit) : Except JsErr Unit := do
  let b ← blockResult
  match b with
  | some blk =>
      match blk.transactions with
      | some _ => onNewBlock blk
      | none => .ok ()
  | none => .ok ()

/-- `SolanaRPCService.processSlot` catches every failure of its body
("Don't throw here to avoid stopping the entire polling loop"), so the
polling loop's caller never observes an error from it. -/
def processSlot (blockResult : Except JsErr (Option Block))
    (onNewBlock : Block → Except JsErr Unit) : Except JsErr Unit :=
  match processSlotBody blockResult onNewBlock with
  | .ok u => .ok u
  | .error _ => .ok ()

/-! ## Validation and session startup (`validation.js`, `TokenTrackingService`) -/

/-- Membership of one character in the class of
`/^[1-9A-HJ-NP-Za-km-z]+$/` (the base58 alphabet). -/
def base58CharOk (c : Char) : Bool :=
  (decide ('1' ≤ c) && decide (c ≤ '9')) ||
  (decide ('A' ≤ c) && decide (c ≤ 'H')) ||
  (decide ('J' ≤ c) && decide (c ≤ 'N')) ||
  (decide ('P' ≤ c) && decide (c ≤ 'Z')) ||
  (decide ('a' ≤ c) && decide (c ≤ 'k')) ||
  (decide ('m' ≤ c) && decide (c ≤ 'z'))

/-- `isValidTokenMint(tokenMint)` (`src/utils/validation.js`): non-empty
string, length 32–44, and the anchored base58 character-class regex.  (The
JS `typeof tokenMint !== 'string'` guard has no counterpart here, since the
embedding types the argument as a string.) -/
def isValidTokenMint (tokenMint : String) : Bool :=
  if tokenMint == "" then false
  else if decide (tokenMint.length < 32) || decide (tokenMint.length > 44) then false
  else !tokenMint.data.isEmpty && tokenMint.data.all base58CharOk

/-- Observable steps of `TokenTrackingService.start(targetToken,
startingBlock)`, in execution order. -/
inductive StartStep where
  | invalidTokenExit
  | setTarget
  | rpcInitialize (ok : Bool)
  | initFailExit
  | startPolling
  deriving DecidableEq, Repr

/-- Whether a step touches the block source (network). -/
def isNetworkStep : StartStep → Bool
  | .rpcInitialize _ => true
  | .startPolling => true
  | _ => false

/-- `TokenTrackingService.start`: validation precedes every network call;
only a valid token reaches `rpcService.initialize()` and the polling loop.
`initOk` abstracts the outcome of the upstream `getSlot` probe. -/
def startSteps (targetToken : String) (_startingBlock : Option Nat) (initOk : Bool) :
    List StartStep :=
  if !isValidTokenMint targetToken then [.invalidTokenExit]
  else if initOk then [.setTarget, .rpcInitialize true, .startPolling]
  else [.setTarget, .rpcInitialize false, .initFailExit]

/-! ## Concrete transactions used by the theorems -/

/-- The §8 scenario transaction: account A's target-token balance rises
0 → 1,000,000 (6 decimals) while its balance of another token falls
5,000,000,000 → 4,000,000,000 (9 decimals); no decoded DEX instruction. -/
def scenarioTx : Transaction :=
  { slot := 1, blockTime := some 5,
    accountKeys := some ["AcctA"],
    staticAccountKeys := none,
    instructions := none,
    meta := some
      { preTokenBalances := some
          [{ accountIndex := 0, mint := "TGT", amount := "0", decimals := 6 },
           { accountIndex := 0, mint := "SSS", amount := "5000000000", decimals := 9 }],
        postTokenBalances := some
          [{ accountIndex := 0, mint := "TGT", amount := "1000000", decimals := 6 },
           { accountIndex := 0, mint := "SSS", amount := "4000000000", decimals := 9 }],
        innerInstructions := none, err := false } }

/-- A transaction with two positive target-token deltas (+100 first, +200
second) and two negative counter-token deltas (−5 first, −10 second). -/
def multiDeltaTx : Transaction :=
  { slot := 2, blockTime := some 5,
    accountKeys := some ["AcctA", "AcctB", "AcctC", "AcctD"],
    staticAccountKeys := none,
    instructions := none,
    meta := some
      { preTokenBalances := some
          [{ accountIndex := 0, mint := "TGT", amount := "0", decimals := 0 },
           { accountIndex := 1, mint := "TGT", amount := "0", decimals := 0 },
           { accountIndex := 2, mint := "S1", amount := "10", decimals := 0 },
           { accountIndex := 3, mint := "S2", amount := "20", decimals := 0 }],
        postTokenBalances := some
          [{ accountIndex := 0, mint := "TGT", amount := "100", decimals := 0 },
           { accountIndex := 1, mint := "TGT", amount := "200", decimals := 0 },
           { accountIndex := 2, mint := "S1", amount := "5", decimals := 0 },
           { accountIndex := 3, mint := "S2", amount := "10", decimals := 0 }],
        innerInstructions := none, err := false } }

/-- A qualifying transaction whose target delta lands at account index 1
(the second account), not the fee payer at index 0. -/
def receiverTx : Transaction :=
  { slot := 3, blockTime := some 5,
    accountKeys := some ["FeePayer", "Receiver"],
    staticAccountKeys := none,
    instructions := none,
    meta := some
      { preTokenBalances := some
          [{ accountIndex := 1, mint := "TGT", amount := "0", decimals := 0 },
           { accountIndex := 0, mint := "SSS", amount := "50", decimals := 0 }],
        postTokenBalances := some
          [{ accountIndex := 1, mint := "TGT", amount := "7", decimals := 0 },
           { accountIndex := 0, mint := "SSS", amount := "40", decimals := 0 }],
        innerInstructions := none, err := false } }

/-- A qualifying transaction carrying 101 instructions of the Raydium
program (payload bytes that match no known signature). -/
def manyInstrTx : Transaction :=
  { slot := 4, blockTime := some 5,
    accountKeys := some ["AcctA", "675kPX9MHTjS2zt1qfr1NYHuzeLXfQM9H24wFSUt1Mp8"],
    staticAccountKeys := none,
    instructions := some (List.replicate 101
      { programIdIndex := 1, data := .bytes (List.replicate 16 42), accounts := some [] }),
    meta := some
      { preTokenBalances := some
          [{ accountIndex := 0, mint := "TGT", amount := "0", decimals := 6 },
           { accountIndex := 0, mint := "SSS", amount := "5000000000", decimals := 9 }],
        postTokenBalances := some
          [{ accountIndex := 0, mint := "TGT", amount := "1000000", decimals := 6 },
           { accountIndex := 0, mint := "SSS", amount := "4000000000", decimals := 9 }],
        innerInstructions := none, err := false } }

/-- A malformed transaction: its post-balance amount is not a numeric
string, so `BigInt('12x4')` throws inside `getTokenBalanceChanges`. -/
def malformedTx : Transaction :=
  { slot := 5, blockTime := some 5,
    accountKeys := some ["AcctA"],
    staticAccountKeys := none,
    instructions := none,
    meta := some
      { preTokenBalances := some
          [{ accountIndex := 0, mint := "MMM", amount := "0", decimals := 0 }],
        postTokenBalances := some
          [{ accountIndex := 0, mint := "MMM", amount := "12x4", decimals := 0 }],
        innerInstructions := none, err := false } }

/-- A fresh session tracking the mint `"TGT"` with no historical start. -/
def trackerTGT : TrackerState := setTargetToken initTracker "TGT" none

/-- The balance deltas `getTokenBalanceChanges` computes for `scenarioTx`. -/
def scenarioChanges : List BalanceChange :=
  [{ mint := "TGT", accountIndex := 0, preAmount := 0, postAmount := 1000000,
     delta := 1000000, decimals := 6 },
   { mint := "SSS", accountIndex := 0, preAmount := 5000000000, postAmount := 4000000000,
     delta := -1000000000, decimals := 9 }]

/-- The balance deltas `getTokenBalanceChanges` computes for `receiverTx`. -/
def receiverChanges : List BalanceChange :=
  [{ mint := "TGT", accountIndex := 1, preAmount := 0, postAmount := 7,
     delta := 7, decimals := 0 },
   { mint := "SSS", accountIndex := 0, preAmount := 50, postAmount := 40,
     delta := -10, decimals := 0 }]

/-- A transaction whose only target-token delta is negative (a sale). -/
def saleTx : Transaction :=
  { slot := 6, blockTime := some 5,
    accountKeys := some ["AcctA"],
    staticAccountKeys := none,
    instructions := none,
    meta := some
      { preTokenBalances := some
          [{ accountIndex := 0, mint := "TGT", amount := "9", decimals := 0 },
           { accountIndex := 0, mint := "SSS", amount := "40", decimals := 0 }],
        postTokenBalances := some
          [{ accountIndex := 0, mint := "TGT", amount := "4", decimals := 0 },
           { accountIndex := 0, mint := "SSS", amount := "90", decimals := 0 }],
        innerInstructions := none, err := false } }

/-- The balance deltas of `saleTx`. -/
def saleChanges : List BalanceChange :=
  [{ mint := "TGT", accountIndex := 0, preAmount := 9, postAmount := 4,
     delta := -5, decimals := 0 },
   { mint := "SSS", accountIndex := 0, preAmount := 40, postAmount := 90,
     delta := 50, decimals := 0 }]

/-- A transaction carrying one unknown-program instruction (index 0) and one
Raydium instruction (index 1) with a payload matching no known signature. -/
def decoderTx : Transaction :=
  { slot := 7, blockTime := some 5,
    accountKeys := some ["UnknownProgram1111111111111111111111111111",
                         "675kPX9MHTjS2zt1qfr1NYHuzeLXfQM9H24wFSUt1Mp8"],
    staticAccountKeys := none,
    instructions := none,
    meta := none }

/-- An instruction resolving to the unknown program of `decoderTx`. -/
def instrUnknownProg : Instruction :=
  { programIdIndex := 0, data := .bytes (List.replicate 16 42), accounts := some [] }

/-- An instruction resolving to Raydium with an uncatalogued 8-byte signature. -/
def instrRayUnmatched : Instruction :=
  { programIdIndex := 1, data := .bytes (List.replicate 16 42), accounts := some [] }

/-- The Raydium entry of the `dexPrograms` table. -/
def raydiumDex : DexInfo :=
  { programId := "675kPX9MHTjS2zt1qfr1NYHuzeLXfQM9H24wFSUt1Mp8", name := "Raydium",
    discriminators := [("swap", [0x09, 0x0a, 0x90, 0x1d, 0x0c, 0x0a, 0x0b, 0x0c])] }

/-! ## Helper lemmas: how detection transforms the stored record list -/

lemma analyzeBuy_skip_state (s : TrackerState) (tgt : String) (inst : DecodedInstruction)
    (ac tc : List BalanceChange) (tx : Transaction) (sig : String) (now : Int) :
    (analyzeBuy s tgt inst ac tc tx sig true now).2 = s := by
  unfold analyzeBuy
  cases tc.filter (fun c => decide (c.delta > 0)) with
  | nil => rfl
  | cons i0 irest =>
      cases ac.filter (fun c => decide (c.delta < 0) && !(c.mint == tgt)) with
      | nil => rfl
      | cons d0 drest => rfl

lemma analyzeBuy_noskip_state (s : TrackerState) (tgt : String) (inst : DecodedInstruction)
    (ac tc : List BalanceChange) (tx : Transaction) (sig : String) (now : Int) :
    (analyzeBuy s tgt inst ac tc tx sig false now).2 =
      { s with detectedBuys :=
          s.detectedBuys ++ (analyzeBuy s tgt inst ac tc tx sig false now).1.toList } := by
  unfold analyzeBuy
  cases tc.filter (fun c => decide (c.delta > 0)) with
  | nil => simp
  | cons i0 irest =>
      cases ac.filter (fun c => decide (c.delta < 0) && !(c.mint == tgt)) with
      | nil => simp
      | cons d0 drest => simp

lemma analyzePotentialBuy_skip_state (s : TrackerState) (tgt : String)
    (ac tc : List BalanceChange) (tx : Transaction) (sig : String) (now : Int) :
    (analyzePotentialBuy s tgt ac tc tx sig true now).2 = s := by
  unfold analyzePotentialBuy
  cases tc.filter (fun c => decide (c.delta > 0)) with
  | nil => rfl
  | cons i0 irest =>
      cases ac.filter (fun c => decide (c.delta < 0) && !(c.mint == tgt)) with
      | nil => rfl
      | cons d0 drest => rfl

lemma analyzePotentialBuy_noskip_state (s : TrackerState) (tgt : String)
    (ac tc : List BalanceChange) (tx : Transaction) (sig : String) (now : Int) :
    (analyzePotentialBuy s tgt ac tc tx sig false now).2 =
      { s with detectedBuys :=
          s.detectedBuys ++ (analyzePotentialBuy s tgt ac tc tx sig false now).1.toList } := by
  unfold analyzePotentialBuy
  cases tc.filter (fun c => decide (c.delta > 0)) with
  | nil => simp
  | cons i0 irest =>
      cases ac.filter (fun c => decide (c.delta < 0) && !(c.mint == tgt)) with
      | nil => simp
      | cons d0 drest => simp

lemma analyzeBuyLoop_skip_state (tgt : String) (ac tc : List BalanceChange)
    (tx : Transaction) (sig : String) (now : Int) (instrs : List DecodedInstruction)
    (s : TrackerState) :
    (analyzeBuyLoop tgt ac tc tx sig true now instrs s).2 = s := by
  induction instrs generalizing s with
  | nil => rfl
  | cons inst rest ih =>
      unfold analyzeBuyLoop
      cases hb : analyzeBuy s tgt inst ac tc tx sig true now with
      | mk fst snd =>
          have hsnd : snd = s := by
            have hst := analyzeBuy_skip_state s tgt inst ac tc tx sig now
            rw [hb] at hst
            exact hst
          cases fst with
          | some b => simp [ih, hsnd]
          | none => simp [ih, hsnd]

lemma analyzeBuyLoop_noskip_state (tgt : String) (ac tc : List BalanceChange)
    (tx : Transaction) (sig : String) (now : Int) (instrs : List DecodedInstruction)
    (s : TrackerState) :
    (analyzeBuyLoop tgt ac tc tx sig false now instrs s).2 =
      { s with detectedBuys :=
          s.detectedBuys ++ (analyzeBuyLoop tgt ac tc tx sig false now instrs s).1 } := by
  induction instrs generalizing s with
  | nil => simp [analyzeBuyLoop]
  | cons inst rest ih =>
      unfold analyzeBuyLoop
      cases hb : analyzeBuy s tgt inst ac tc tx sig false now with
      | mk fst snd =>
          have hsnd : snd = { s with detectedBuys := s.detectedBuys ++ fst.toList } := by
            have hst := analyzeBuy_noskip_state s tgt inst ac tc tx sig now
            rw [hb] at hst
            exact hst
          cases fst with
          | some b => simp [ih, hsnd, Option.toList]
          | none => simp [ih, hsnd, Option.toList]

lemma analyzePotentialBuy_pair_state (s : TrackerState) (tgt : String)
    (ac tc : List BalanceChange) (tx : Transaction) (sig : String) (skip : Bool)
    (now : Int) (pb : Option BuyData) (ps : TrackerState)
    (h : analyzePotentialBuy s tgt ac tc tx sig skip now = (pb, ps)) :
    ps = if skip then s else { s with detectedBuys := s.detectedBuys ++ pb.toList } := by
  cases skip with
  | true =>
      have hst := analyzePotentialBuy_skip_state s tgt ac tc tx sig now
      rw [h] at hst
      simpa using hst
  | false =>
      have hst := analyzePotentialBuy_noskip_state s tgt ac tc tx sig now
      rw [h] at hst
      simpa using hst

lemma analyzeBuyLoop_pair_state (tgt : String) (ac tc : List BalanceChange)
    (tx : Transaction) (sig : String) (skip : Bool) (now : Int)
    (instrs : List DecodedInstruction) (s : TrackerState)
    (lout : List BuyData) (ls : TrackerState)
    (h : analyzeBuyLoop tgt ac tc tx sig skip now instrs s = (lout, ls)) :
    ls = if skip then s else { s with detectedBuys := s.detectedBuys ++ lout } := by
  cases skip with
  | true =>
      have hst := analyzeBuyLoop_skip_state tgt ac tc tx sig now instrs s
      rw [h] at hst
      simpa using hst
  | false =>
      have hst := analyzeBuyLoop_noskip_state tgt ac tc tx sig now instrs s
      rw [h] at hst
      simpa using hst

lemma detectBody_ok_state (s : TrackerState) (tgt : String) (skip : Bool)
    (tx : Transaction) (sig : String) (now : Int) (out : List BuyData) (s2 : TrackerState)
    (h : detectBody s tgt skip tx sig now = .ok (out, s2)) :
    s2 = if skip then s else { s with detectedBuys := s.detectedBuys ++ out } := by
  unfold detectBody at h
  cases hbc : getTokenBalanceChanges tx with
  | error e => rw [hbc] at h; exact absurd h (by simp)
  | ok bc =>
      simp only [hbc] at h
      cases htc : bc.filter (fun c => c.mint == tgt) with
      | nil =>
          simp only [htc] at h
          simp only [Except.ok.injEq, Prod.mk.injEq] at h
          obtain ⟨hout, hs2⟩ := h
          cases skip <;> simp [← hout, ← hs2]
      | cons c0 crest =>
          simp only [htc] at h
          cases hdex : (decodeTransaction tx).filter (fun inst => !(inst.dex == "")) with
          | nil =>
              simp only [hdex] at h
              cases hpb : analyzePotentialBuy s tgt bc (c0 :: crest) tx sig skip now with
              | mk pb ps =>
                  simp only [hpb] at h
                  have hps := analyzePotentialBuy_pair_state s tgt bc (c0 :: crest) tx sig
                    skip now pb ps hpb
                  cases pb with
                  | some b =>
                      simp only [Except.ok.injEq, Prod.mk.injEq] at h
                      obtain ⟨hout, hs2⟩ := h
                      rw [← hs2, hps, ← hout]
                      simp [Option.toList]
                  | none =>
                      simp only [Except.ok.injEq, Prod.mk.injEq] at h
                      obtain ⟨hout, hs2⟩ := h
                      cases skip <;> simp [← hout, ← hs2]
          | cons d0 drest =>
              simp only [hdex] at h
              cases hlp : analyzeBuyLoop tgt bc (c0 :: crest) tx sig skip now
                  (d0 :: drest) s with
              | mk lout ls =>
                  simp only [hlp] at h
                  have hls := analyzeBuyLoop_pair_state tgt bc (c0 :: crest) tx sig skip now
                    (d0 :: drest) s lout ls hlp
                  cases lout with
                  | nil =>
                      have hlsS : ls = s := by
                        cases skip <;> simpa using hls
                      cases hpb : analyzePotentialBuy ls tgt bc (c0 :: crest) tx sig
                          skip now with
                      | mk pb ps =>
                          simp only [hpb] at h
                          have hps := analyzePotentialBuy_pair_state ls tgt bc (c0 :: crest)
                            tx sig skip now pb ps hpb
                          cases pb with
                          | some b =>
                              simp only [Except.ok.injEq, Prod.mk.injEq] at h
                              obtain ⟨hout, hs2⟩ := h
                              rw [← hs2, hps, hlsS, ← hout]
                              simp [Option.toList]
                          | none =>
                              simp only [Except.ok.injEq, Prod.mk.injEq] at h
                              obtain ⟨hout, hs2⟩ := h
                              rw [← hs2, hlsS, ← hout]
                              cases skip <;> simp
                  | cons b bs =>
                      simp only [Except.ok.injEq, Prod.mk.injEq] at h
                      obtain ⟨hout, hs2⟩ := h
                      rw [← hs2, hls, ← hout]

/-- The state equation of one `detectBuysInTransaction` call: if the stored
count already reached `maxBuys` when the call began, nothing is appended;
otherwise exactly the returned records are appended, in order. -/
lemma detect_detectedBuys_eq (s : TrackerState) (tx : Transaction) (sig : String)
    (now : Int) :
    (detectBuysInTransaction s tx sig now).2 =
      if s.maxBuys ≤ s.detectedBuys.length then s
      else { s with detectedBuys :=
               s.detectedBuys ++ (detectBuysInTransaction s tx sig now).1 } := by
  unfold detectBuysInTransaction
  cases htils : s.targetToken with
  | none => cases Nat.decLe s.maxBuys s.detectedBuys.length with
      | isTrue hle => simp [hle]
      | isFalse hlt => simp [hlt]; rw [← htils]
  | some tgt =>
      by_cases htgt : tgt == ""
      · simp only [htgt, if_true]
        cases Nat.decLe s.maxBuys s.detectedBuys.length with
        | isTrue hle => simp [hle]
        | isFalse hlt => simp [hlt]; rw [← htils]
      · simp only [htgt, if_false]
        by_cases hgate : startingBlockGate s.startingBlock tx.slot
        · simp only [hgate, if_true]
          cases Nat.decLe s.maxBuys s.detectedBuys.length with
          | isTrue hle => simp [hle]
          | isFalse hlt => simp [hlt]; rw [← htils]
        · simp only [hgate, if_false]
          cases hbody : detectBody s tgt (decide (s.detectedBuys.length ≥ s.maxBuys))
              tx sig now with
          | error e =>
              cases Nat.decLe s.maxBuys s.detectedBuys.length with
              | isTrue hle => simp [hle]
              | isFalse hlt => simp [hlt]; rw [← htils]
          | ok r =>
              cases r with
              | mk out s2 =>
                  have hs2 := detectBody_ok_state s tgt
                    (decide (s.detectedBuys.length ≥ s.maxBuys)) tx sig now out s2 hbody
                  by_cases hle : s.maxBuys ≤ s.detectedBuys.length
                  · have hd : decide (s.detectedBuys.length ≥ s.maxBuys) = true := by
                      simpa using hle
                    rw [hd] at hs2
                    simp only [if_pos hle]
                    simpa using hs2
                  · have hd : decide (s.detectedBuys.length ≥ s.maxBuys) = false := by
                      simpa using hle
                    rw [hd] at hs2
                    rw [← htils]
                    simp only [if_neg hle]
                    simpa using hs2

lemma analyzeBuy_fst_none_iff (s : TrackerState) (tgt : String) (inst : DecodedInstruction)
    (ac tc : List BalanceChange) (tx : Transaction) (sig : String) (skip : Bool) (now : Int) :
    (analyzeBuy s tgt inst ac tc tx sig skip now).1 = none ↔
      tc.filter (fun c => decide (c.delta > 0)) = [] ∨
      ac.filter (fun c => decide (c.delta < 0) && !(c.mint == tgt)) = [] := by
  unfold analyzeBuy
  cases h1 : tc.filter (fun c => decide (c.delta > 0)) with
  | nil => simp
  | cons i0 irest =>
      cases h2 : ac.filter (fun c => decide (c.delta < 0) && !(c.mint == tgt)) with
      | nil => simp
      | cons d0 drest => cases skip <;> simp

lemma analyzePotentialBuy_fst_none_iff (s : TrackerState) (tgt : String)
    (ac tc : List BalanceChange) (tx : Transaction) (sig : String) (skip : Bool) (now : Int) :
    (analyzePotentialBuy s tgt ac tc tx sig skip now).1 = none ↔
      tc.filter (fun c => decide (c.delta > 0)) = [] ∨
      ac.filter (fun c => decide (c.delta < 0) && !(c.mint == tgt)) = [] := by
  unfold analyzePotentialBuy
  cases h1 : tc.filter (fun c => decide (c.delta > 0)) with
  | nil => simp
  | cons i0 irest =>
      cases h2 : ac.filter (fun c => decide (c.delta < 0) && !(c.mint == tgt)) with
      | nil => simp
      | cons d0 drest => cases skip <;> simp

lemma analyzeBuyLoop_fst_nil_iff (tgt : String) (ac tc : List BalanceChange)
    (tx : Transaction) (sig : String) (skip : Bool) (now : Int)
    (instrs : List DecodedInstruction) (s : TrackerState) :
    (analyzeBuyLoop tgt ac tc tx sig skip now instrs s).1 = [] ↔
      instrs = [] ∨ tc.filter (fun c => decide (c.delta > 0)) = [] ∨
        ac.filter (fun c => decide (c.delta < 0) && !(c.mint == tgt)) = [] := by
  induction instrs generalizing s with
  | nil => simp [analyzeBuyLoop]
  | cons inst rest ih =>
      unfold analyzeBuyLoop
      cases hb : analyzeBuy s tgt inst ac tc tx sig skip now with
      | mk fst snd =>
          have hiff := analyzeBuy_fst_none_iff s tgt inst ac tc tx sig skip now
          rw [hb] at hiff
          cases fst with
          | some b =>
              have hnot : ¬(tc.filter (fun c => decide (c.delta > 0)) = [] ∨
                  ac.filter (fun c => decide (c.delta < 0) && !(c.mint == tgt)) = []) := by
                intro hor
                exact absurd (hiff.mpr hor) (by simp)
              refine iff_of_false (by simp) ?_
              intro hor
              rcases hor with h | hor2
              · exact absurd h (by simp)
              · exact hnot hor2
          | none =>
              have hor := hiff.mp rfl
              rw [ih snd]
              exact iff_of_true (Or.inr hor) (Or.inr hor)

lemma analyzePotentialBuy_buyer (s : TrackerState) (tgt : String)
    (ac tc : List BalanceChange) (tx : Transaction) (sig : String) (skip : Bool)
    (now : Int) (b : BuyData) (ps : TrackerState)
    (h : analyzePotentialBuy s tgt ac tc tx sig skip now = (some b, ps)) :
    ∃ i0 irest, tc.filter (fun c => decide (c.delta > 0)) = i0 :: irest ∧
      b.buyer = extractBuyer tx ((irest.foldl targetBuyStep i0).accountIndex) := by
  unfold analyzePotentialBuy at h
  cases h1 : tc.filter (fun c => decide (c.delta > 0)) with
  | nil => rw [h1] at h; exact absurd h (by simp)
  | cons i0 irest =>
      rw [h1] at h
      cases h2 : ac.filter (fun c => decide (c.delta < 0) && !(c.mint == tgt)) with
      | nil => rw [h2] at h; exact absurd h (by simp)
      | cons d0 drest =>
          rw [h2] at h
          refine ⟨i0, irest, rfl, ?_⟩
          cases skip with
          | true =>
              simp at h
              obtain ⟨hb, -⟩ := h
              rw [← hb]
          | false =>
              simp at h
              obtain ⟨hb, -⟩ := h
              rw [← hb]

lemma analyzeBuy_buyer (s : TrackerState) (tgt : String) (inst : DecodedInstruction)
    (ac tc : List BalanceChange) (tx : Transaction) (sig : String) (skip : Bool)
    (now : Int) (b : BuyData) (ps : TrackerState)
    (h : analyzeBuy s tgt inst ac tc tx sig skip now = (some b, ps)) :
    ∃ i0 irest, tc.filter (fun c => decide (c.delta > 0)) = i0 :: irest ∧
      b.buyer = extractBuyer tx ((irest.foldl targetBuyStep i0).accountIndex) := by
  unfold analyzeBuy at h
  cases h1 : tc.filter (fun c => decide (c.delta > 0)) with
  | nil => rw [h1] at h; exact absurd h (by simp)
  | cons i0 irest =>
      rw [h1] at h
      cases h2 : ac.filter (fun c => decide (c.delta < 0) && !(c.mint == tgt)) with
      | nil => rw [h2] at h; exact absurd h (by simp)
      | cons d0 drest =>
          rw [h2] at h
          refine ⟨i0, irest, rfl, ?_⟩
          cases skip with
          | true =>
              simp at h
              obtain ⟨hb, -⟩ := h
              rw [← hb]
          | false =>
              simp at h
              obtain ⟨hb, -⟩ := h
              rw [← hb]

lemma detect_eq_body (s : TrackerState) (tx : Transaction) (sig : String) (now : Int)
    (tgt : String) (h1 : s.targetToken = some tgt) (h2 : (tgt == "") = false)
    (h3 : startingBlockGate s.startingBlock tx.slot = false) :
    detectBuysInTransaction s tx sig now =
      match detectBody s tgt (decide (s.detectedBuys.length ≥ s.maxBuys)) tx sig now with
      | .ok r => r
      | .error _ => ([], s) := by
  unfold detectBuysInTransaction
  rw [h1]
  simp only [h2, h3, Bool.false_eq_true, if_false]

lemma detect_out_nil_iff (s : TrackerState) (tx : Transaction) (sig : String) (now : Int)
    (tgt : String) (changes : List BalanceChange)
    (h1 : s.targetToken = some tgt) (h2 : (tgt == "") = false)
    (h3 : startingBlockGate s.startingBlock tx.slot = false)
    (h4 : getTokenBalanceChanges tx = .ok changes) :
    (detectBuysInTransaction s tx sig now).1 = [] ↔
      (changes.filter (fun c => c.mint == tgt)).filter (fun c => decide (c.delta > 0)) = [] ∨
      changes.filter (fun c => decide (c.delta < 0) && !(c.mint == tgt)) = [] := by
  rw [detect_eq_body s tx sig now tgt h1 h2 h3]
  unfold detectBody
  simp only [h4]
  cases htc : changes.filter (fun c => c.mint == tgt) with
  | nil =>
      exact iff_of_true (by simp) (Or.inl rfl)
  | cons c0 crest =>
      cases hdex : (decodeTransaction tx).filter (fun inst => !(inst.dex == "")) with
      | nil =>
          simp only [hdex]
          cases hpb : analyzePotentialBuy s tgt changes (c0 :: crest) tx sig
              (decide (s.detectedBuys.length ≥ s.maxBuys)) now with
          | mk pb ps =>
              have hiff := analyzePotentialBuy_fst_none_iff s tgt changes (c0 :: crest) tx sig
                (decide (s.detectedBuys.length ≥ s.maxBuys)) now
              rw [hpb] at hiff
              cases pb with
              | some b =>
                  refine iff_of_false (by simp) ?_
                  intro hor
                  exact absurd (hiff.mpr hor) (by simp)
              | none =>
                  exact iff_of_true (by simp) (hiff.mp rfl)
      | cons d0 drest =>
          simp only [hdex]
          cases hlp : analyzeBuyLoop tgt changes (c0 :: crest) tx sig
              (decide (s.detectedBuys.length ≥ s.maxBuys)) now (d0 :: drest) s with
          | mk lout ls =>
              have hlnil := analyzeBuyLoop_fst_nil_iff tgt changes (c0 :: crest) tx sig
                (decide (s.detectedBuys.length ≥ s.maxBuys)) now (d0 :: drest) s
              rw [hlp] at hlnil
              cases lout with
              | nil =>
                  have hor : (c0 :: crest).filter (fun c => decide (c.delta > 0)) = [] ∨
                      changes.filter (fun c => decide (c.delta < 0) && !(c.mint == tgt)) = [] := by
                    rcases hlnil.mp rfl with h | h | h
                    · exact absurd h (by simp)
                    · exact Or.inl h
                    · exact Or.inr h
                  cases hpb : analyzePotentialBuy ls tgt changes (c0 :: crest) tx sig
                      (decide (s.detectedBuys.length ≥ s.maxBuys)) now with
                  | mk pb ps =>
                      have hiff := analyzePotentialBuy_fst_none_iff ls tgt changes (c0 :: crest)
                        tx sig (decide (s.detectedBuys.length ≥ s.maxBuys)) now
                      rw [hpb] at hiff
                      cases pb with
                      | some b => exact absurd (hiff.mpr hor) (by simp)
                      | none =>
                          exact iff_of_true (by simp) hor
              | cons b bs =>
                  refine iff_of_false (by simp) ?_
                  intro hor2
                  exact absurd (hlnil.mpr (Or.inr hor2)) (by simp)

lemma analyzeBuyLoop_buyer (tgt : String) (ac tc : List BalanceChange)
    (tx : Transaction) (sig : String) (skip : Bool) (now : Int)
    (instrs : List DecodedInstruction) (s : TrackerState) :
    ∀ b ∈ (analyzeBuyLoop tgt ac tc tx sig skip now instrs s).1, ∃ i0 irest,
      tc.filter (fun c => decide (c.delta > 0)) = i0 :: irest ∧
      b.buyer = extractBuyer tx ((irest.foldl targetBuyStep i0).accountIndex) := by
  induction instrs generalizing s with
  | nil => simp [analyzeBuyLoop]
  | cons inst rest ih =>
      unfold analyzeBuyLoop
      cases hab : analyzeBuy s tgt inst ac tc tx sig skip now with
      | mk fst snd =>
          cases fst with
          | some b0 =>
              intro b hb
              have hb2 : b = b0 ∨ b ∈ (analyzeBuyLoop tgt ac tc tx sig skip now rest snd).1 := by
                simpa using hb
              rcases hb2 with rfl | hmem
              · exact analyzeBuy_buyer s tgt inst ac tc tx sig skip now b snd hab
              · exact ih snd b hmem
          | none => exact ih snd

lemma detect_out_buyer (s : TrackerState) (tx : Transaction) (sig : String) (now : Int)
    (tgt : String) (changes : List BalanceChange)
    (h1 : s.targetToken = some tgt) (h2 : (tgt == "") = false)
    (h3 : startingBlockGate s.startingBlock tx.slot = false)
    (h4 : getTokenBalanceChanges tx = .ok changes) :
    ∀ b ∈ (detectBuysInTransaction s tx sig now).1, ∃ i0 irest,
      (changes.filter (fun c => c.mint == tgt)).filter (fun c => decide (c.delta > 0)) =
        i0 :: irest ∧
      b.buyer = extractBuyer tx ((irest.foldl targetBuyStep i0).accountIndex) := by
  rw [detect_eq_body s tx sig now tgt h1 h2 h3]
  unfold detectBody
  simp only [h4]
  cases htc : changes.filter (fun c => c.mint == tgt) with
  | nil => simp
  | cons c0 crest =>
      cases hdex : (decodeTransaction tx).filter (fun inst => !(inst.dex == "")) with
      | nil =>
          simp only [hdex]
          cases hpb : analyzePotentialBuy s tgt changes (c0 :: crest) tx sig
              (decide (s.detectedBuys.length ≥ s.maxBuys)) now with
          | mk pb ps =>
              cases pb with
              | some b0 =>
                  intro b hb
                  have hb0 : b = b0 := by simpa using hb
                  rw [hb0]
                  exact analyzePotentialBuy_buyer s tgt changes (c0 :: crest) tx sig
                    (decide (s.detectedBuys.length ≥ s.maxBuys)) now b0 ps hpb
              | none => simp
      | cons d0 drest =>
          simp only [hdex]
          cases hlp : analyzeBuyLoop tgt changes (c0 :: crest) tx sig
              (decide (s.detectedBuys.length ≥ s.maxBuys)) now (d0 :: drest) s with
          | mk lout ls =>
              have hloop := analyzeBuyLoop_buyer tgt changes (c0 :: crest) tx sig
                (decide (s.detectedBuys.length ≥ s.maxBuys)) now (d0 :: drest) s
              rw [hlp] at hloop
              cases lout with
              | nil =>
                  cases hpb : analyzePotentialBuy ls tgt changes (c0 :: crest) tx sig
                      (decide (s.detectedBuys.length ≥ s.maxBuys)) now with
                  | mk pb ps =>
                      cases pb with
                      | some b0 =>
                          intro b hb
                          have hb0 : b = b0 := by simpa using hb
                          rw [hb0]
                          exact analyzePotentialBuy_buyer ls tgt changes (c0 :: crest) tx sig
                            (decide (s.detectedBuys.length ≥ s.maxBuys)) now b0 ps hpb
                      | none => simp
              | cons b0 bs =>
                  intro b hb
                  have hb2 : b ∈ b0 :: bs := by simpa using hb
                  exact hloop b hb2

lemma detect_out_singleton (s : TrackerState) (tx : Transaction) (sig : String) (now : Int)
    (tgt : String) (changes : List BalanceChange)
    (h1 : s.targetToken = some tgt) (h2 : (tgt == "") = false)
    (h3 : startingBlockGate s.startingBlock tx.slot = false)
    (h4 : getTokenBalanceChanges tx = .ok changes)
    (hnodex : (decodeTransaction tx).filter (fun inst => !(inst.dex == "")) = [])
    (hpos : (changes.filter (fun c => c.mint == tgt)).filter
      (fun c => decide (c.delta > 0)) ≠ [])
    (hneg : changes.filter (fun c => decide (c.delta < 0) && !(c.mint == tgt)) ≠ []) :
    ∃ b, (detectBuysInTransaction s tx sig now).1 = [b] := by
  rw [detect_eq_body s tx sig now tgt h1 h2 h3]
  unfold detectBody
  simp only [h4]
  cases htc : changes.filter (fun c => c.mint == tgt) with
  | nil =>
      rw [htc] at hpos
      exact absurd rfl hpos
  | cons c0 crest =>
      simp only [hnodex]
      cases hpb : analyzePotentialBuy s tgt changes (c0 :: crest) tx sig
          (decide (s.detectedBuys.length ≥ s.maxBuys)) now with
      | mk pb ps =>
          have hiff := analyzePotentialBuy_fst_none_iff s tgt changes (c0 :: crest) tx sig
            (decide (s.detectedBuys.length ≥ s.maxBuys)) now
          rw [hpb] at hiff
          cases pb with
          | some b => exact ⟨b, rfl⟩
          | none =>
              rcases hiff.mp rfl with h | h
              · rw [htc] at hpos; exact absurd h hpos
              · exact absurd h hneg

lemma arraysEqual_iff (a : List Nat) : ∀ b, arraysEqual a b = true ↔ a = b := by
  induction a with
  | nil => intro b; cases b <;> simp [arraysEqual]
  | cons x xs ih =>
      intro b
      cases b with
      | nil => simp [arraysEqual]
      | cons y ys =>
          have hys := ih ys
          simp only [arraysEqual] at hys ⊢
          simp at hys ⊢
          tauto

/-! ## Claim theorems -/

set_option maxRecDepth 100000

/-- C1 (counterexample): feeding 101 qualifying historical transactions to a
fresh session leaves only 100 stored records — the claim's "final record
count after backfill equals N, not targetCount" is false, the stored count
is capped at `maxBuys = 100`. -/
theorem backfill_run_of_101_stores_only_100 :
    (runDetect trackerTGT (List.replicate 101 (scenarioTx, "sig")) 0).detectedBuys.length
      = 100 ∧
    ¬((runDetect trackerTGT (List.replicate 101 (scenarioTx, "sig")) 0).detectedBuys.length
      = 101) := by
  decide

/-- C1 (amended): during backfill every qualifying transaction still produces
exactly one record returned by the detection call, and reaching the target
count never sets the completion flag; but the record is appended to the
stored list only when the stored count at the start of the call is below
`maxBuys`, so the stored count grows by one below the cap and not at all at
or above it (final stored count min(N, targetCount) over a backfill of N
single-record qualifying transactions). -/
theorem backfill_append_gated_by_target_count (s : TrackerState) (sig : String) (now : Int)
    (h1 : s.targetToken = some "TGT") (h3 : s.startingBlock = none) :
    (detectBuysInTransaction s scenarioTx sig now).1.length = 1 ∧
    (detectBuysInTransaction s scenarioTx sig now).2.detectedBuys.length =
      (if s.maxBuys ≤ s.detectedBuys.length then s.detectedBuys.length
       else s.detectedBuys.length + 1) ∧
    (detectBuysInTransaction s scenarioTx sig now).2.isComplete = s.isComplete := by
  have h2 : (("TGT" : String) == "") = false := by decide
  have h3g : startingBlockGate s.startingBlock scenarioTx.slot = false := by
    rw [h3]; rfl
  have h4 : getTokenBalanceChanges scenarioTx = .ok scenarioChanges := by rfl
  obtain ⟨b, hb⟩ := detect_out_singleton s scenarioTx sig now "TGT" scenarioChanges h1 h2 h3g
    h4 (by decide) (by decide) (by decide)
  have heq := detect_detectedBuys_eq s scenarioTx sig now
  refine ⟨by rw [hb]; rfl, ?_, ?_⟩
  · rw [heq]
    by_cases hle : s.maxBuys ≤ s.detectedBuys.length
    · simp [hle]
    · simp [hle, hb]
  · rw [heq]
    by_cases hle : s.maxBuys ≤ s.detectedBuys.length
    · simp [hle]
    · simp [hle]

/-- Witness for C1's amended theorem at a fresh session. -/
theorem backfill_append_gated_by_target_count_witness :
    (detectBuysInTransaction trackerTGT scenarioTx "sig" 0).1.length = 1 ∧
    (detectBuysInTransaction trackerTGT scenarioTx "sig" 0).2.detectedBuys.length =
      (if trackerTGT.maxBuys ≤ trackerTGT.detectedBuys.length then
        trackerTGT.detectedBuys.length
       else trackerTGT.detectedBuys.length + 1) ∧
    (detectBuysInTransaction trackerTGT scenarioTx "sig" 0).2.isComplete =
      trackerTGT.isComplete :=
  backfill_append_gated_by_target_count trackerTGT "sig" 0 rfl rfl

/-- C2 (counterexample): on the §8 scenario transaction the produced record
does not carry `amountSpent = "1000000000"` or `unitPrice = "1000.00000000"`
— both fields are `"0"`. -/
theorem scenario_record_not_as_specified :
    (detectBuysInTransaction trackerTGT scenarioTx "sig" 0).1.length = 1 ∧
    ¬((detectBuysInTransaction trackerTGT scenarioTx "sig" 0).1.map
        (fun b => b.amountSold) = ["1000000000"]) ∧
    ¬((detectBuysInTransaction trackerTGT scenarioTx "sig" 0).1.map
        (fun b => b.pricePerToken) = ["1000.00000000"]) := by
  decide

/-- C2 (amended): the scenario yields exactly one record with
`amountAcquired "1000000"`, `amountSpent "0"`, `unitPrice "0"` and
`confidence "medium"`; more generally `calculatePrice` returns `"0"` on every
input, because `Math.abs` applied to a BigInt throws a `TypeError` that the
handler converts to `"0"` (the amount-spent string defaults to `"0"` the same
way). -/
theorem scenario_record_values_and_price_always_zero :
    ((detectBuysInTransaction trackerTGT scenarioTx "sig" 0).1.map
        (fun b => (b.amountBought, b.amountSold, b.pricePerToken, b.confidence)) =
      [("1000000", "0", "0", "medium")]) ∧
    ∀ a b : BalanceChange, calculatePrice a b = "0" := by
  exact ⟨by decide, fun a b => rfl⟩

/-- C3 (code_bug): with target-token deltas +100 then +200 and counter-token
deltas −5 (token `S1`, first) then −10 (token `S2`, larger), the record takes
the largest increase (`"200"`) as claimed, but takes `S1` — the *first*
decrease, not the largest-magnitude one — as the token spent (and its amount
string collapses to `"0"`): inside the `tokenSold` reduce,
`Math.abs(BigInt(...))` throws and the `catch` returns the accumulator, so
the first decrease always wins, contradicting the claim and the source's own
comment "Take the largest decrease as what was sold". -/
theorem tokenSold_is_first_decrease_not_largest :
    ((detectBuysInTransaction trackerTGT multiDeltaTx "sig" 0).1.map
        (fun b => (b.amountBought, b.tokenSold, b.amountSold)) = [("200", "S1", "0")]) ∧
    ("S1" : String) ≠ "S2" := by
  decide

/-- C4 (counterexample): on a transaction whose winning target-token delta
sits at account index 1, the recorded acquirer is `"Receiver"` (the account at
that index), not the fee payer `"FeePayer"` at index 0. -/
theorem buyer_is_receiver_not_fee_payer :
    ((detectBuysInTransaction trackerTGT receiverTx "sig" 0).1.map (fun b => b.buyer) =
      ["Receiver"]) ∧
    (effectiveAccounts receiverTx)[0]? = some "FeePayer" ∧
    ("Receiver" : String) ≠ "FeePayer" := by
  decide

/-- C10 (counterexample): one transaction carrying 101 DEX instructions
pushes a fresh session's stored record list to 101 entries — beyond the cap
of 100 — because `skipAddingBuys` is evaluated once per transaction, before
the appends. -/
theorem single_tx_overshoots_cap :
    (detectBuysInTransaction trackerTGT manyInstrTx "sig" 0).2.detectedBuys.length = 101 ∧
    trackerTGT.maxBuys = 100 ∧ ¬(101 ≤ 100) := by
  decide

/-- C10 (amended): the append gate is checked once per detection call: if the
stored count was at or above `maxBuys` when the call began nothing is
appended (though detected records are still returned); otherwise every
returned record of the call is appended, so a single multi-record
transaction can push the stored count past the cap. -/
theorem append_gate_checked_once_per_transaction (s : TrackerState) (tx : Transaction)
    (sig : String) (now : Int) :
    (detectBuysInTransaction s tx sig now).2 =
      if s.maxBuys ≤ s.detectedBuys.length then s
      else { s with detectedBuys :=
               s.detectedBuys ++ (detectBuysInTransaction s tx sig now).1 } :=
  detect_detectedBuys_eq s tx sig now

/-- C4 (amended): the acquirer address recorded in a produced record is
`extractBuyer` applied to the account index of the winning (largest) positive
target-token delta; `extractBuyer` returns the account *at that index* when
it is within the transaction's account list, and falls back to the first
`accountKeys` entry (the fee payer) only when the index is out of range. -/
theorem buyer_is_account_at_winning_delta_index (s : TrackerState) (tx : Transaction)
    (sig : String) (now : Int) (tgt : String) (changes : List BalanceChange)
    (h1 : s.targetToken = some tgt) (h2 : (tgt == "") = false)
    (h3 : startingBlockGate s.startingBlock tx.slot = false)
    (h4 : getTokenBalanceChanges tx = .ok changes) :
    (∀ b ∈ (detectBuysInTransaction s tx sig now).1, ∃ i0 irest,
      (changes.filter (fun c => c.mint == tgt)).filter (fun c => decide (c.delta > 0)) =
        i0 :: irest ∧
      b.buyer = extractBuyer tx ((irest.foldl targetBuyStep i0).accountIndex)) ∧
    (∀ (tx2 : Transaction) (i : Nat) (a : String),
      (effectiveAccounts tx2)[i]? = some a → extractBuyer tx2 i = a) ∧
    (∀ (tx2 : Transaction) (i : Nat) (a : String) (rest : List String),
      tx2.accountKeys = some (a :: rest) → (effectiveAccounts tx2).length ≤ i →
      extractBuyer tx2 i = a) := by
  refine ⟨detect_out_buyer s tx sig now tgt changes h1 h2 h3 h4, ?_, ?_⟩
  · intro tx2 i a ha
    unfold extractBuyer
    dsimp only
    rw [ha]
  · intro tx2 i a rest hak hlen
    unfold extractBuyer
    dsimp only
    rw [List.getElem?_eq_none hlen, hak]

/-- Witness for C4's amended theorem: the detect-level part at `receiverTx`
together with the in-range case of `extractBuyer`. -/
theorem buyer_is_account_at_winning_delta_index_witness :
    extractBuyer receiverTx 1 = "Receiver" :=
  (buyer_is_account_at_winning_delta_index trackerTGT receiverTx "sig" 0 "TGT"
      receiverChanges rfl (by decide) rfl (by rfl)).2.1 receiverTx 1 "Receiver" (by decide)

/-- C5 (confirmed): with a target set, classification returns the empty list
exactly when the transaction's deltas lack a positive target-token delta or
lack a negative non-target-token delta; in particular no target delta at
all, only negative target deltas (a sale), or no decreasing counter-token
each yield `[]`, and a record is produced whenever both a positive target
delta and a negative non-target delta exist. -/
theorem classify_empty_iff_no_buy_sale_pair (s : TrackerState) (tx : Transaction)
    (sig : String) (now : Int) (tgt : String) (changes : List BalanceChange)
    (h1 : s.targetToken = some tgt) (h2 : (tgt == "") = false)
    (h3 : s.startingBlock = none)
    (h4 : getTokenBalanceChanges tx = .ok changes) :
    (detectBuysInTransaction s tx sig now).1 = [] ↔
      ¬((∃ c ∈ changes, c.mint = tgt ∧ 0 < c.delta) ∧
        (∃ c ∈ changes, c.mint ≠ tgt ∧ c.delta < 0)) := by
  have h3g : startingBlockGate s.startingBlock tx.slot = false := by rw [h3]; rfl
  rw [detect_out_nil_iff s tx sig now tgt changes h1 h2 h3g h4]
  have e1 : ((changes.filter (fun c => c.mint == tgt)).filter
      (fun c => decide (c.delta > 0)) = []) ↔
      ¬(∃ c ∈ changes, c.mint = tgt ∧ 0 < c.delta) := by
    simp [List.filter_eq_nil_iff, List.mem_filter]
    constructor
    · intro h x hx hm
      by_contra hp
      exact h x hx (by omega) hm
    · intro h a ha hd hm
      have := h a ha hm
      omega
  have e2 : (changes.filter (fun c => decide (c.delta < 0) && !(c.mint == tgt)) = []) ↔
      ¬(∃ c ∈ changes, c.mint ≠ tgt ∧ c.delta < 0) := by
    simp [List.filter_eq_nil_iff]
    constructor
    · intro h x hx hm
      by_contra hp
      exact hm (h x hx (by omega))
    · intro h a ha hd
      by_contra hm
      have := h a ha hm
      omega
  rw [e1, e2, not_and_or]

/-- Witness for C5: a pure sale (only a negative target delta) yields no
record. -/
theorem classify_empty_iff_no_buy_sale_pair_witness :
    (detectBuysInTransaction trackerTGT saleTx "sig" 0).1 = [] :=
  (classify_empty_iff_no_buy_sale_pair trackerTGT saleTx "sig" 0 "TGT" saleChanges rfl
      (by decide) rfl (by rfl)).mpr (by decide)

/-- C6 (confirmed): the instruction decoder drops an instruction whose
resolved program identifier is not in the exchange-program table, while an
instruction from a known program is emitted even when its 8-byte leading
signature matches no table entry — its operation type is then `"unknown"`
instead of the instruction being dropped. -/
theorem unknown_program_dropped_unmatched_signature_emitted
    (tx : Transaction) (instruction : Instruction) (index : String) (pid : String)
    (hres : (effectiveAccounts tx)[instruction.programIdIndex]? = some pid)
    (hne : (pid == "") = false) :
    (findDexByProgramId pid = none → decodeInstruction instruction tx index = none) ∧
    (∀ d, findDexByProgramId pid = some d →
      decodeInstruction instruction tx index = some
        { index := index, programId := pid, dex := d.name,
          accounts := instruction.accounts.getD [],
          data := instruction.data,
          decodedData := decodeInstructionData instruction.data d,
          isSwapInstruction := isSwapInstruction (decodeInstructionData instruction.data d) d,
          isRelevantInstruction :=
            isRelevantInstruction (decodeInstructionData instruction.data d) d,
          isInner := false, parentInstructionIndex := none }) ∧
    (∀ d : DexInfo,
      (∀ e ∈ d.discriminators,
        some e.2 ≠ (decodeInstructionData instruction.data d).discriminator) →
      (decodeInstructionData instruction.data d).type = "unknown") := by
  refine ⟨?_, ?_, ?_⟩
  · intro hfind
    unfold decodeInstruction
    dsimp only
    rw [hres]
    simp [hne, hfind]
  · intro d hfind
    unfold decodeInstruction
    dsimp only
    rw [hres]
    simp [hne, hfind]
  · intro d hnomatch
    unfold decodeInstructionData
    by_cases hearly : (instrDataFalsy instruction.data || decide
        (instrDataLen instruction.data < 8)) = true
    · simp [hearly]
    · simp only [hearly, Bool.false_eq_true, if_false]
      have hmd : ∀ bs : List Nat,
          (∀ e ∈ d.discriminators, some e.2 ≠ (matchDiscriminator bs d).discriminator) →
          (matchDiscriminator bs d).type = "unknown" := by
        intro bs hno
        unfold matchDiscriminator
        by_cases hlen : bs.length < 8
        · simp [hlen]
        · simp only [hlen, if_false]
          cases hf : d.discriminators.find? (fun e => arraysEqual (bs.take 8) e.2) with
          | some e =>
              have hmem := List.mem_of_find?_eq_some hf
              have hp := List.find?_some hf
              have heq : bs.take 8 = e.2 := (arraysEqual_iff _ _).mp hp
              have hdisc : (matchDiscriminator bs d).discriminator = some e.2 := by
                unfold matchDiscriminator
                dsimp only
                rw [if_neg hlen, hf]
                simp [heq]
              exact absurd hdisc.symm (hno e hmem)
          | none => simp
      cases hb : base58ToBytes instruction.data with
      | ok bs =>
          apply hmd bs
          intro e he
          have := hnomatch e he
          unfold decodeInstructionData at this
          rw [if_neg (by simp [hearly]), hb] at this
          exact this
      | error err =>
          cases hdata : instruction.data with
          | str sdata =>
              simp
          | bytes l =>
              apply hmd l
              intro e he
              have := hnomatch e he
              unfold decodeInstructionData at this
              rw [if_neg (by simp [hearly]), hdata] at this
              rw [hdata] at hb
              rw [hb] at this
              exact this

/-- Witness for C6: an unknown program's instruction is dropped; a Raydium
instruction with the uncatalogued signature bytes `42 × 8` is emitted with
operation type `"unknown"`. -/
theorem unknown_program_dropped_unmatched_signature_emitted_witness :
    decodeInstruction instrUnknownProg decoderTx "0" = none ∧
    (decodeInstruction instrRayUnmatched decoderTx "1").isSome = true ∧
    (decodeInstructionData instrRayUnmatched.data raydiumDex).type = "unknown" := by
  have hu := unknown_program_dropped_unmatched_signature_emitted decoderTx instrUnknownProg
    "0" "UnknownProgram1111111111111111111111111111" (by rfl) (by decide)
  have hr := unknown_program_dropped_unmatched_signature_emitted decoderTx instrRayUnmatched
    "1" "675kPX9MHTjS2zt1qfr1NYHuzeLXfQM9H24wFSUt1Mp8" (by rfl) (by decide)
  refine ⟨hu.1 (by rfl), ?_, hr.2.2 raydiumDex (by decide)⟩
  rw [hr.2.1 raydiumDex (by rfl)]
  rfl

/-- C7 (confirmed): starting a fresh run of consecutive throttling responses
(consecutive-throttle counter 0), the first two 429s cause no rotation, the
third causes exactly one rotation — the endpoint index advances by one modulo
the pool size 4 — together with a reset of all backoff state (inter-request
delay back to its 500 ms base, consecutive-throttle and retry counters and
the request-window count zeroed) and a 5000 ms pause. -/
theorem three_throttles_rotate_once_and_reset (s : RpcState) (t1 t2 t3 : Int)
    (h : s.consecutiveRateLimitErrors = 0) :
    (handleRetry s .throttled429 t1).2.rotated = false ∧
    (handleRetry s .throttled429 t1).1.currentRpcIndex = s.currentRpcIndex ∧
    (handleRetry (handleRetry s .throttled429 t1).1 .throttled429 t2).2.rotated = false ∧
    (handleRetry (handleRetry s .throttled429 t1).1 .throttled429 t2).1.currentRpcIndex =
      s.currentRpcIndex ∧
    (throttle3 s t1 t2 t3).2.rotated = true ∧
    (throttle3 s t1 t2 t3).2.sleptMs = 5000 ∧
    (throttle3 s t1 t2 t3).1.currentRpcIndex = (s.currentRpcIndex + 1) % 4 ∧
    (throttle3 s t1 t2 t3).1.rateLimitDelay = requestDelayDefault ∧
    (throttle3 s t1 t2 t3).1.consecutiveRateLimitErrors = 0 ∧
    (throttle3 s t1 t2 t3).1.retryCount = 0 ∧
    (throttle3 s t1 t2 t3).1.requestCount = 0 := by
  unfold throttle3 handleRetry switchRpcEndpoint
  simp [h, rpcEndpoints]

/-- Witness for C7 from the constructor's initial state. -/
theorem three_throttles_rotate_once_and_reset_witness :
    (handleRetry (initRpcState 0) .throttled429 0).2.rotated = false ∧
    (handleRetry (initRpcState 0) .throttled429 0).1.currentRpcIndex =
      (initRpcState 0).currentRpcIndex ∧
    (handleRetry (handleRetry (initRpcState 0) .throttled429 0).1
        .throttled429 0).2.rotated = false ∧
    (handleRetry (handleRetry (initRpcState 0) .throttled429 0).1
        .throttled429 0).1.currentRpcIndex = (initRpcState 0).currentRpcIndex ∧
    (throttle3 (initRpcState 0) 0 0 0).2.rotated = true ∧
    (throttle3 (initRpcState 0) 0 0 0).2.sleptMs = 5000 ∧
    (throttle3 (initRpcState 0) 0 0 0).1.currentRpcIndex =
      ((initRpcState 0).currentRpcIndex + 1) % 4 ∧
    (throttle3 (initRpcState 0) 0 0 0).1.rateLimitDelay = requestDelayDefault ∧
    (throttle3 (initRpcState 0) 0 0 0).1.consecutiveRateLimitErrors = 0 ∧
    (throttle3 (initRpcState 0) 0 0 0).1.retryCount = 0 ∧
    (throttle3 (initRpcState 0) 0 0 0).1.requestCount = 0 :=
  three_throttles_rotate_once_and_reset (initRpcState 0) 0 0 0 rfl

/-- C8 (confirmed): a token identifier failing the address-format check
(length outside 32–44 or a character outside the base58 alphabet) makes
`start` exit immediately with no block-source step, before any network call;
a passing identifier reaches the block-source initialization.  The format
check accepts exactly the strings of length 32–44 over the base58
alphabet. -/
theorem invalid_mint_rejected_before_network (token : String) (sb : Option Nat)
    (initOk : Bool) :
    (isValidTokenMint token = false →
      startSteps token sb initOk = [.invalidTokenExit] ∧
      ∀ st ∈ startSteps token sb initOk, isNetworkStep st = false) ∧
    (isValidTokenMint token = true →
      StartStep.rpcInitialize initOk ∈ startSteps token sb initOk) ∧
    (isValidTokenMint token = true ↔
      32 ≤ token.length ∧ token.length ≤ 44 ∧ token.data.all base58CharOk = true) := by
  refine ⟨?_, ?_, ?_⟩
  · intro hv
    have hs : startSteps token sb initOk = [.invalidTokenExit] := by
      unfold startSteps
      simp [hv]
    refine ⟨hs, ?_⟩
    intro st hst
    rw [hs] at hst
    have : st = .invalidTokenExit := by simpa using hst
    rw [this]
    rfl
  · intro hv
    unfold startSteps
    simp [hv]
    cases initOk <;> simp
  · unfold isValidTokenMint
    by_cases he : (token == "") = true
    · have he2 : token = "" := by simpa using he
      subst he2
      simp
    · simp only [he, Bool.false_eq_true, if_false]
      by_cases hlen : (decide (token.length < 32) || decide (token.length > 44)) = true
      · simp only [hlen, if_true]
        have hout : token.length < 32 ∨ token.length > 44 := by simpa using hlen
        refine iff_of_false (by simp) ?_
        rintro ⟨hge, hle, -⟩
        omega
      · simp only [hlen, Bool.false_eq_true, if_false]
        have hin : 32 ≤ token.length ∧ token.length ≤ 44 := by
          have := hlen
          simp at this
          omega
        have hne : token.data.isEmpty = false := by
          rcases token with ⟨data⟩
          cases data with
          | nil => exact absurd (by decide) he
          | cons a as => rfl
        simp [hne, hin.1, hin.2]

/-- Witness for C8: a malformed identifier is rejected with no network step,
and a genuine mint address passes the format check. -/
theorem invalid_mint_rejected_before_network_witness :
    startSteps "not-valid!" none true = [.invalidTokenExit] ∧
    isValidTokenMint "So11111111111111111111111111111111111111112" = true := by
  refine ⟨((invalid_mint_rejected_before_network "not-valid!" none true).1 (by decide)).1, ?_⟩
  exact (invalid_mint_rejected_before_network
    "So11111111111111111111111111111111111111112" none true).2.2.mpr (by decide)

/-- C9 (confirmed): per-transaction classification never propagates an
internal failure — when the body of `detectBuysInTransaction` throws, the
catch handler returns the empty record list with the session state
untouched — and `processSlot` never propagates a failure of its body, so one
malformed transaction or block cannot stop block-level or session-level
processing. -/
theorem classification_failures_contained :
    (∀ (s : TrackerState) (tx : Transaction) (sig : String) (now : Int) (tgt : String)
        (e : JsErr),
      s.targetToken = some tgt → (tgt == "") = false →
      startingBlockGate s.startingBlock tx.slot = false →
      detectBody s tgt (decide (s.detectedBuys.length ≥ s.maxBuys)) tx sig now = .error e →
      detectBuysInTransaction s tx sig now = ([], s)) ∧
    (∀ (blockResult : Except JsErr (Option Block)) (onNewBlock : Block → Except JsErr Unit),
      processSlot blockResult onNewBlock = .ok ()) := by
  constructor
  · intro s tx sig now tgt e h1 h2 h3 hb
    rw [detect_eq_body s tx sig now tgt h1 h2 h3, hb]
  · intro br onb
    unfold processSlot
    cases processSlotBody br onb with
    | ok u => cases u; rfl
    | error e => rfl

/-- Witness for C9: a malformed balance-amount string makes the body throw a
`SyntaxError`, yet detection returns `[]` with the state unchanged; a failed
block fetch leaves `processSlot` returning normally. -/
theorem classification_failures_contained_witness :
    detectBuysInTransaction trackerTGT malformedTx "sig" 0 = ([], trackerTGT) ∧
    processSlot (.error .genericError) (fun _ => .ok ()) = .ok () :=
  ⟨classification_failures_contained.1 trackerTGT malformedTx "sig" 0 "TGT" .syntaxError
      rfl (by decide) rfl (by rfl),
   classification_failures_contained.2 (.error .genericError) (fun _ => .ok ())⟩

end Solkol
